import Mathlib

/-!
Verification development for the Universal-ticket-mock-APIs repository.

The Python sources under `src/` are shallowly embedded below:

* `src/scrapers/utils.py` — field normalisation helpers
  (`time_to_datetime`, `parse_query_date`, `normalize_airport_code`);
* `src/utils.py` — booking decision policy and booking management
  (`decide_train_booking_outcome`, `create_booking`, `cancel_booking`);
* `src/scrapers/transport_scraper.py` — the cache-first resolver
  (`search_schedules`, `save_schedules`, `get_availability`, dispatch);
* `src/transport_scraper.py` — the older scraper iteration imported by
  `src/main.py` (`search_database`, `save_to_database`, `scrape_availability`);
* `src/database_config.py` — the SQLAlchemy models, embedded as plain
  records plus the declarative-constructor keyword check.

Machine datetimes are modelled as records of `Nat` fields; CPython's
`strptime` for the two formats the source uses (`"%Y-%m-%d"` and
`"%Y-%m-%d %H:%M:%S"`) is modelled as an executable parser over `List Char`.
Python exceptions are modelled with `Except PyErr`.  All definitions are
computable so that every theorem can be evaluated on concrete inputs.
-/

/-! ## Character-list utilities

Python string operations (`in`, `strip`, `lower`, slicing, `find`) are
modelled over `List Char`.  Only ASCII behaviour is relied on, matching the
ASCII message/status texts the program handles.
-/

/-- Whitespace as stripped by `str.strip()` (ASCII subset). -/
def isWs (c : Char) : Bool := c.isWhitespace

/-- ASCII lowercase of a character list, modelling `str.lower()`. -/
def toLowerL (l : List Char) : List Char := l.map Char.toLower

/-- ASCII uppercase of a character list, modelling `str.upper()`. -/
def toUpperL (l : List Char) : List Char := l.map Char.toUpper

/-- Model of `str.strip()`: drop whitespace at both ends. -/
def trimL (l : List Char) : List Char :=
  (((l.dropWhile isWs).reverse).dropWhile isWs).reverse

/-- Does `pat` occur at the head of `l`? -/
def leadsWith : List Char → List Char → Bool
  | [], _ => true
  | _ :: _, [] => false
  | a :: as, b :: bs => a == b && leadsWith as bs

/-- Model of Python's `pat in l` substring test. -/
def containsL (pat : List Char) : List Char → Bool
  | [] => pat.isEmpty
  | c :: t => leadsWith pat (c :: t) || containsL pat t

/-- Substring test on strings (`pat in s` in Python). -/
def containsS (s pat : String) : Bool := containsL pat.data s.data

/-- First index at which `pat` occurs in `l` (Python `str.find` for an
occurring pattern). -/
def findIdxSub (pat : List Char) : List Char → Option Nat
  | [] => if pat.isEmpty then some 0 else none
  | c :: t =>
    if leadsWith pat (c :: t) then some 0
    else (findIdxSub pat t).map (· + 1)

/-- Everything before the first occurrence of `pat` (Python
`s.split(pat)[0]` when `pat` occurs; the whole list otherwise). -/
def beforeFirst (pat : List Char) : List Char → List Char
  | [] => []
  | c :: t => if leadsWith pat (c :: t) then [] else c :: beforeFirst pat t

/-- Python `s.split(' ')[0]`: the prefix before the first space (the whole
string if no space occurs).  Used by every `date_part` computation in
`src/scrapers/utils.py`. -/
def datePartL (l : List Char) : List Char := l.takeWhile (· ≠ ' ')

/-! ## Calendar datetimes -/

/-- A Python `datetime.datetime` value (naive). -/
structure PyDateTime where
  year : Nat
  month : Nat
  day : Nat
  hour : Nat
  minute : Nat
  second : Nat
  microsecond : Nat
deriving DecidableEq, Repr

/-- Lexicographic `<=` on datetimes, as Python compares `datetime` values. -/
def dtLe (a b : PyDateTime) : Bool :=
  if a.year ≠ b.year then a.year < b.year
  else if a.month ≠ b.month then a.month < b.month
  else if a.day ≠ b.day then a.day < b.day
  else if a.hour ≠ b.hour then a.hour < b.hour
  else if a.minute ≠ b.minute then a.minute < b.minute
  else if a.second ≠ b.second then a.second < b.second
  else a.microsecond ≤ b.microsecond

/-- Lexicographic `<` on datetimes. -/
def dtLt (a b : PyDateTime) : Bool :=
  if a.year ≠ b.year then a.year < b.year
  else if a.month ≠ b.month then a.month < b.month
  else if a.day ≠ b.day then a.day < b.day
  else if a.hour ≠ b.hour then a.hour < b.hour
  else if a.minute ≠ b.minute then a.minute < b.minute
  else if a.second ≠ b.second then a.second < b.second
  else a.microsecond < b.microsecond

/-- The calendar-day triple of a datetime. -/
def ymdOf (d : PyDateTime) : Nat × Nat × Nat := (d.year, d.month, d.day)

/-- Gregorian leap-year test. -/
def isLeapYear (y : Nat) : Bool := (y % 4 == 0 && y % 100 != 0) || y % 400 == 0

/-- Number of days in a month. -/
def daysInMonth (y m : Nat) : Nat :=
  if m = 2 then (if isLeapYear y then 29 else 28)
  else if m = 4 ∨ m = 6 ∨ m = 9 ∨ m = 11 then 30 else 31

/-- The calendar day following `(y, m, d)`. -/
def nextYmd (y m d : Nat) : Nat × Nat × Nat :=
  if d < daysInMonth y m then (y, m, d + 1)
  else if m < 12 then (y, m + 1, 1)
  else (y + 1, 1, 1)

/-- Replace the calendar day of a datetime, keeping its time of day. -/
def withYmd (t : PyDateTime) (ymd : Nat × Nat × Nat) : PyDateTime :=
  { t with year := ymd.1, month := ymd.2.1, day := ymd.2.2 }

/-! ## Model of CPython `strptime` for the formats used by the source

`strptime` matches the whole input against a regex built from the format.
For `"%Y-%m-%d %H:%M:%S"` the numeric fields match one-or-two digit runs in
range (`%Y` exactly four), literal `-`/`:` match themselves, and the space
matches one or more whitespace characters; a successful match must consume
the whole string and the resulting day must exist in the parsed month
(otherwise the `datetime` constructor raises and `strptime` fails).
-/

/-- Numeric value of a digit run. -/
def digitsToNat (ds : List Char) : Nat :=
  ds.foldl (fun a c => a * 10 + (c.toNat - 48)) 0

/-- Maximal leading digit run and the rest. -/
def spanDigits (l : List Char) : List Char × List Char :=
  (l.takeWhile Char.isDigit, l.dropWhile Char.isDigit)

/-- Read a numeric field of exactly `n` digits. -/
def readFixed (n : Nat) (l : List Char) : Option (Nat × List Char) :=
  let (ds, rest) := spanDigits l
  if ds.length = n then some (digitsToNat ds, rest) else none

/-- Read a one-or-two digit field whose value lies in `[lo, hi]`. -/
def readFlex2 (lo hi : Nat) (l : List Char) : Option (Nat × List Char) :=
  let (ds, rest) := spanDigits l
  if (ds.length = 1 ∨ ds.length = 2) ∧ lo ≤ digitsToNat ds ∧ digitsToNat ds ≤ hi
  then some (digitsToNat ds, rest) else none

/-- Expect a literal character. -/
def expectCh (c : Char) : List Char → Option (List Char)
  | [] => none
  | a :: t => if a == c then some t else none

/-- Parse a complete `%Y-%m-%d` date (whole list consumed), validating the
day against the month and requiring `year >= 1` as `datetime` does. -/
def parseYmdAll (l : List Char) : Option (Nat × Nat × Nat) := do
  let (y, r1) ← readFixed 4 l
  let r2 ← expectCh '-' r1
  let (m, r3) ← readFlex2 1 12 r2
  let r4 ← expectCh '-' r3
  let (d, r5) ← readFlex2 1 31 r4
  if r5 = [] ∧ 1 ≤ y ∧ d ≤ daysInMonth y m then some (y, m, d) else none

/-- Parse a complete `%H:%M:%S` time (whole list consumed). -/
def parseHmsAll (l : List Char) : Option (Nat × Nat × Nat) := do
  let (h, r1) ← readFlex2 0 23 l
  let r2 ← expectCh ':' r1
  let (mi, r3) ← readFlex2 0 59 r2
  let r4 ← expectCh ':' r3
  let (s, r5) ← readFlex2 0 59 r4
  if r5 = [] then some (h, mi, s) else none

/-- Model of `datetime.strptime(s, "%Y-%m-%d")`. -/
def strptimeYmd (s : String) : Option PyDateTime :=
  (parseYmdAll s.data).map fun ymd =>
    ⟨ymd.1, ymd.2.1, ymd.2.2, 0, 0, 0, 0⟩

/-- Model of `datetime.strptime(s, "%Y-%m-%d %H:%M:%S")`.  Neither the date
fields nor the time fields can match whitespace, so the regex match is
equivalent to: the maximal whitespace-free prefix matches the date in full,
at least one whitespace character follows, and the whitespace-free remainder
matches the time in full. -/
def strptimeYmdHms (s : String) : Option PyDateTime :=
  let l := s.data
  let a := l.takeWhile (fun c => ¬ isWs c)
  let rest := l.dropWhile (fun c => ¬ isWs c)
  let c := rest.dropWhile isWs
  if rest.isEmpty ∨ c.any isWs then none
  else
    match parseYmdAll a, parseHmsAll c with
    | some ymd, some hms =>
      some ⟨ymd.1, ymd.2.1, ymd.2.2, hms.1, hms.2.1, hms.2.2, 0⟩
    | _, _ => none

/-! ## Python exceptions -/

/-- Python exceptions relevant to the embedded code. -/
inductive PyErr where
  | attributeError (msg : String)
  | typeError (msg : String)
  | valueError (msg : String)
  | overflowError (msg : String)
deriving DecidableEq, Repr

/-- Model of Python `str(e)` on the exceptions above. -/
def pyErrStr : PyErr → String
  | .attributeError m => m
  | .typeError m => m
  | .valueError m => m
  | .overflowError m => m

/-- True when an `Except` computation models a raised exception. -/
def raised {α : Type} : Except PyErr α → Bool
  | .error _ => true
  | .ok _ => false

/-! ## Field normaliser (`src/scrapers/utils.py`) -/

/-- Python `base.split(' ')[0] if ' ' in base else base` as a `String`. -/
def datePartS (s : String) : String := ⟨datePartL s.data⟩

/-- Embedding of `time_to_datetime` (src/scrapers/utils.py lines 66-88).
Builds `f"{date_part} {time_str}:00"` and parses it with
`"%Y-%m-%d %H:%M:%S"`; on failure the handler parses
`f"{base_date} 00:00:00"` with the same format — and that second parse
itself raises a `ValueError` when it fails (e.g. when `base_date` carries a
time part), which the function does not catch. -/
def time_to_datetime (time_str base_date : String) : Except PyErr PyDateTime :=
  match strptimeYmdHms (datePartS base_date ++ " " ++ time_str ++ ":00") with
  | some dt => .ok dt
  | none =>
    match strptimeYmdHms (base_date ++ " 00:00:00") with
    | some dt => .ok dt
    | none => .error (.valueError "time data does not match format")

/-- Embedding of `parse_query_date` (src/scrapers/utils.py lines 90-104).
`none` models the uncaught `ValueError` from `strptime`. -/
def parse_query_date (datetime_str : String) : Option (PyDateTime × PyDateTime) :=
  (strptimeYmd (datePartS datetime_str)).map fun d =>
    ({ d with hour := 0, minute := 0, second := 0, microsecond := 0 },
     { d with hour := 23, minute := 59, second := 59, microsecond := 999999 })

/-- Python slice `l[start:stop]` for non-negative bounds. -/
def pySlice (start stop : Nat) (l : List Char) : List Char :=
  (l.take stop).drop start

/-- Model of `str.isupper()` for ASCII text: at least one cased character
and no lowercase one. -/
def pyIsUpper (l : List Char) : Bool :=
  l.any Char.isAlpha && l.all (fun c => ¬ c.isLower)

/-- Embedding of `normalize_airport_code` (src/scrapers/utils.py lines
106-130).  For a `str` argument no branch of the body can raise, so the
`except` fallback (which alone mentions `"UNK"`) is unreachable. -/
def normalize_airport_code (location_text : String) : String :=
  let l := location_text.data
  if containsL " - ".data l then
    ⟨trimL (beforeFirst " - ".data l)⟩
  else if l.contains '(' && l.contains ')' then
    let start := (findIdxSub ['('] l).getD 0 + 1
    let stop := (findIdxSub [')'] l).getD 0
    ⟨trimL (pySlice start stop l)⟩
  else if l.length = 3 && pyIsUpper l then
    location_text
  else
    ⟨toUpperL (l.take 3)⟩

/-! ## Data model (`src/database_config.py`, `src/schemas.py`)

Rows are embedded with the columns the SQLAlchemy models actually declare.
`created_at` / `booking_date` (wall-clock defaults) are omitted: no claim
mentions them.  The `Bookings` model declares **no** `seat_preferences`
column (src/database_config.py lines 56-65) and the `TransportSchedules`
model **removed** its `search_date` column (line 40). -/

structure ScheduleRecord where
  id : Nat
  transport_mode : String
  transport_id : String
  transport_name : String
  origin : String
  departure_time : PyDateTime
  destination : String
  arrival_time : PyDateTime
  duration : String
  distance : Option String
  halts : Option String
  origin_code : String
  destination_code : String
  origin_query : String
  destination_query : String
deriving DecidableEq, Repr

structure SeatRow where
  id : Nat
  schedule_id : Nat
  class_name : String
  class_description : String
  status : String
  price : String
deriving DecidableEq, Repr

/-- A row of the `bookings` table.  Note: no seat-preferences column. -/
structure BookingRow where
  id : String
  user_id : String
  schedule_id : Nat
  booking_status : String
deriving DecidableEq, Repr

/-- The persistent store: the three tables plus autoincrement counters. -/
structure DBState where
  schedules : List ScheduleRecord
  seats : List SeatRow
  bookings : List BookingRow
  nextScheduleId : Nat
  nextSeatId : Nat
deriving DecidableEq, Repr

/-- Attributes of the declarative `Bookings` class. -/
def bookingsModelAttrs : List String :=
  ["id", "user_id", "schedule_id", "booking_status", "booking_date", "schedule"]

/-- Attributes of the declarative `TransportSchedules` class; `search_date`
was removed (src/database_config.py line 40). -/
def transportSchedulesModelAttrs : List String :=
  ["id", "transport_mode", "transport_id", "transport_name", "origin",
   "departure_time", "destination", "arrival_time", "duration", "distance",
   "halts", "origin_code", "destination_code", "origin_query",
   "destination_query", "created_at", "seat_availability"]

/-- SQLAlchemy's default declarative constructor: raises `TypeError` on the
first keyword argument that is not an attribute of the model class. -/
def sqlalchemyCtorCheck (modelAttrs kwargs : List String) : Except PyErr Unit :=
  match kwargs.find? (fun k => ¬ modelAttrs.contains k) with
  | none => .ok ()
  | some k => .error (.typeError (k ++ " is an invalid keyword argument"))

/-! Wire shapes (`src/schemas.py`). -/

structure TravelQuery where
  mode : String
  origin : String
  destination : String
  datetime : String
deriving DecidableEq, Repr

structure SeatPreferences where
  seat_class : String
  seat_position : Option String
  coach : Option String
  seat_number : Option String
deriving DecidableEq, Repr

structure SeatAvailabilityResponse where
  id : Option Nat
  class_name : String
  class_description : String
  status : String
  price : String
deriving DecidableEq, Repr

structure TransportScheduleResponse where
  id : Option Nat
  transport_mode : String
  transport_id : String
  transport_name : String
  origin : String
  departure_time : String
  destination : String
  arrival_time : String
  duration : String
  distance : Option String
  halts : Option String
  origin_code : String
  destination_code : String
  seat_availability : List SeatAvailabilityResponse
deriving DecidableEq, Repr

structure TravelAvailabilityResponse where
  input : TravelQuery
  schedules : List TransportScheduleResponse
  status : String
  message : Option String
  source : String
deriving DecidableEq, Repr

structure BookingResponse where
  booking_id : String
  status : String
  message : String
  booking_status : Option String
deriving DecidableEq, Repr

structure CancellationResponse where
  status : String
  message : String
deriving DecidableEq, Repr

/-! ## Booking decision policy (`src/utils.py` lines 8-40) -/

/-- One attempt of the regex `(\d+)\s*available` at the current position:
a non-empty maximal digit run, optional whitespace, then `available`. -/
def numAvailAt (l : List Char) : Option Nat :=
  let (ds, rest) := spanDigits l
  if ds.isEmpty then none
  else if leadsWith "available".data (rest.dropWhile isWs) then
    some (digitsToNat ds)
  else none

/-- Model of `re.search(r"(\d+)\s*available", text)`: the leftmost position
where the pattern matches. -/
def searchNumAvailable : List Char → Option Nat
  | [] => none
  | c :: t =>
    match numAvailAt (c :: t) with
    | some n => some n
    | none => searchNumAvailable t

/-- Embedding of `decide_train_booking_outcome` (src/utils.py lines 8-40).
Inside the `available` branch the source returns `"confirmed"` both when the
parsed count is positive and on the fall-through after the count check, so
both arms of the inner conditional are `"confirmed"`. -/
def decide_train_booking_outcome (status_text : String) : String :=
  if status_text = "" then "regret"
  else
    let text := toLowerL (trimL status_text.data)
    if containsL "available".data text then
      match searchNumAvailable text with
      | some n => if n > 0 then "confirmed" else "confirmed"
      | none => "confirmed"
    else if containsL "regret".data text then "regret"
    else if containsL "waitlist".data text || containsL "wl".data text then
      "waitlist"
    else "regret"

/-! ## Booking manager (`src/utils.py` lines 43-175) -/

/-- Case-insensitive equality, modelling SQL `ILIKE` with a wildcard-free
pattern (the `%`/`_` wildcard cases are not exercised by any claim). -/
def ciEq (a b : String) : Bool := toLowerL a.data == toLowerL b.data

/-- `db.query(TransportSchedules).filter(id == sid).first()`. -/
def findSchedule (db : DBState) (sid : Nat) : Option ScheduleRecord :=
  db.schedules.find? (fun r => r.id == sid)

/-- The seat-availability row for a schedule and class
(`class_name.ilike(seat_class)`), first match. -/
def findSeatRow (db : DBState) (sid : Nat) (cls : String) : Option SeatRow :=
  db.seats.find? (fun r => r.schedule_id == sid && ciEq r.class_name cls)

/-- `db.query(Bookings).filter(id == bid).first()`. -/
def findBooking (db : DBState) (bid : String) : Option BookingRow :=
  db.bookings.find? (fun b => b.id == bid)

/-- A `BookingResponse` with `status="error"` and empty booking id. -/
def bookingError (msg : String) : BookingResponse :=
  { booking_id := "", status := "error", message := msg, booking_status := none }

/-- Embedding of `create_booking` (src/utils.py lines 43-126).  The fresh
`uuid4` is passed in as `gen_uuid`.  After all guards pass, the source
constructs `Bookings(..., seat_preferences=...)`; the declarative
constructor rejects the `seat_preferences` keyword (no such column on
`Bookings`), the raised `TypeError` is caught by the surrounding handler,
the session is rolled back and an error response is returned. -/
def create_booking (user_id : String) (schedule_id : Nat) (db : DBState)
    (seat_preferences : Option SeatPreferences) (gen_uuid : String) :
    BookingResponse × DBState :=
  match findSchedule db schedule_id with
  | none => (bookingError "Schedule not found", db)
  | some schedule =>
    match seat_preferences with
    | none => (bookingError "seat_preferences.seat_class is required", db)
    | some prefs =>
      if prefs.seat_class = "" then
        (bookingError "seat_preferences.seat_class is required", db)
      else
        match findSeatRow db schedule_id prefs.seat_class with
        | none =>
          (bookingError
            ("No seat availability data for class " ++ prefs.seat_class), db)
        | some seat_status_row =>
          let outcome := decide_train_booking_outcome seat_status_row.status
          match sqlalchemyCtorCheck bookingsModelAttrs
              ["id", "user_id", "schedule_id", "booking_status",
               "seat_preferences"] with
          | .error e =>
            (bookingError ("Error creating booking: " ++ pyErrStr e), db)
          | .ok _ =>
            -- unreachable: "seat_preferences" is not a `Bookings` attribute
            let row : BookingRow :=
              { id := gen_uuid, user_id := user_id,
                schedule_id := schedule_id, booking_status := outcome }
            ({ booking_id := gen_uuid, status := "success",
               message :=
                 "Booking " ++ outcome ++ " for " ++ schedule.transport_name
                   ++ " (" ++ schedule.transport_id ++ ") from "
                   ++ schedule.origin ++ " to " ++ schedule.destination
                   ++ " in " ++ prefs.seat_class,
               booking_status := some outcome },
             { db with bookings := db.bookings ++ [row] })

/-- Mutate the row returned by `.first()`: flip the first booking with the
given id to `cancelled`. -/
def cancelFirstBooking : List BookingRow → String → List BookingRow
  | [], _ => []
  | b :: t, bid =>
    if b.id == bid then { b with booking_status := "cancelled" } :: t
    else b :: cancelFirstBooking t bid

/-- Embedding of `cancel_booking` (src/utils.py lines 129-175). -/
def cancel_booking (booking_id : String) (db : DBState) :
    CancellationResponse × DBState :=
  match findBooking db booking_id with
  | none => ({ status := "error", message := "Booking not found" }, db)
  | some booking =>
    if booking.booking_status = "cancelled" then
      ({ status := "error", message := "Booking is already cancelled" }, db)
    else
      let schedule := findSchedule db booking.schedule_id
      let db2 :=
        { db with bookings := cancelFirstBooking db.bookings booking_id }
      let message :=
        match schedule with
        | some s =>
          "Booking cancelled for " ++ s.transport_name ++ " ("
            ++ s.transport_id ++ ") from " ++ s.origin ++ " to "
            ++ s.destination
        | none => "Booking cancelled successfully"
      ({ status := "success", message := message }, db2)

/-! ## Cache resolver (`src/scrapers/transport_scraper.py`) -/

/-- Model of `column.ilike(f"%{pat}%")` for a wildcard-free `pat`:
case-insensitive substring containment. -/
def ilikeContains (field pat : String) : Bool :=
  containsL (toLowerL pat.data) (toLowerL field.data)

/-- The row filter of `search_schedules` (src/scrapers/transport_scraper.py
lines 32-46): mode equality, fuzzy origin/destination match on either the
stored query text or the carrier-reported text, and departure time within
`[lo, hi]`. -/
def schedMatchesQuery (q : TravelQuery) (lo hi : PyDateTime)
    (r : ScheduleRecord) : Bool :=
  r.transport_mode == q.mode
    && (ilikeContains r.origin_query q.origin
        || ilikeContains r.origin q.origin)
    && (ilikeContains r.destination_query q.destination
        || ilikeContains r.destination q.destination)
    && (dtLe lo r.departure_time && dtLe r.departure_time hi)

/-- `strftime('%H:%M')`. -/
def pad2 (n : Nat) : String := if n < 10 then "0" ++ toString n else toString n

/-- Hour-minute rendering used by `_convert_to_response_format`. -/
def fmtHM (t : PyDateTime) : String := pad2 t.hour ++ ":" ++ pad2 t.minute

/-- Seat row to response shape. -/
def seatToResponse (s : SeatRow) : SeatAvailabilityResponse :=
  { id := some s.id, class_name := s.class_name,
    class_description := s.class_description, status := s.status,
    price := s.price }

/-- Embedding of `_convert_to_response_format` for one schedule
(src/scrapers/transport_scraper.py lines 109-143); the `seat_availability`
relationship yields the seat rows whose `schedule_id` matches. -/
def scheduleToResponse (db : DBState) (r : ScheduleRecord) :
    TransportScheduleResponse :=
  { id := some r.id, transport_mode := r.transport_mode,
    transport_id := r.transport_id, transport_name := r.transport_name,
    origin := r.origin, departure_time := fmtHM r.departure_time,
    destination := r.destination, arrival_time := fmtHM r.arrival_time,
    duration := r.duration, distance := r.distance, halts := r.halts,
    origin_code := r.origin_code, destination_code := r.destination_code,
    seat_availability :=
      (db.seats.filter (fun s => s.schedule_id == r.id)).map seatToResponse }

/-- Embedding of `search_schedules` (src/scrapers/transport_scraper.py
lines 26-61).  A `strptime` failure inside `parse_query_date` is caught by
the blanket `except`, which falls through to `return None`. -/
def search_schedules (q : TravelQuery) (db : DBState) :
    Option TravelAvailabilityResponse :=
  match parse_query_date q.datetime with
  | none => none
  | some (lo, hi) =>
    let matched := db.schedules.filter (schedMatchesQuery q lo hi)
    if matched.isEmpty then none
    else
      some { input := q, schedules := matched.map (scheduleToResponse db),
             status := "success",
             message := some ("Found " ++ toString matched.length
               ++ " schedules from database"),
             source := "database" }

/-- Python `datetime + timedelta(days=1)`: raises `OverflowError` past the
maximum representable date. -/
def addOneDay (t : PyDateTime) : Except PyErr PyDateTime :=
  if t.year = 9999 ∧ t.month = 12 ∧ t.day = 31 then
    .error (.overflowError "date value out of range")
  else .ok (withYmd t (nextYmd t.year t.month t.day))

/-- One iteration of the `save_schedules` loop
(src/scrapers/transport_scraper.py lines 65-105): normalise both times
against the query date, roll the arrival to the next day when it is not
after the departure, then add the schedule row and its seat rows. -/
def saveOne (q : TravelQuery) (db : DBState)
    (sd : TransportScheduleResponse) : Except PyErr DBState :=
  match time_to_datetime sd.departure_time q.datetime with
  | .error e => .error e
  | .ok dep =>
    match time_to_datetime sd.arrival_time q.datetime with
    | .error e => .error e
    | .ok arrRaw =>
      match (if dtLe arrRaw dep then addOneDay arrRaw else .ok arrRaw) with
      | .error e => .error e
      | .ok arr =>
        .ok { db with
              schedules := db.schedules ++
                [{ id := db.nextScheduleId,
                   transport_mode := sd.transport_mode,
                   transport_id := sd.transport_id,
                   transport_name := sd.transport_name,
                   origin := sd.origin, departure_time := dep,
                   destination := sd.destination, arrival_time := arr,
                   duration := sd.duration, distance := sd.distance,
                   halts := sd.halts, origin_code := sd.origin_code,
                   destination_code := sd.destination_code,
                   origin_query := q.origin,
                   destination_query := q.destination }],
              seats := db.seats ++
                (sd.seat_availability.enum).map (fun (i, seat) =>
                  ({ id := db.nextSeatId + i,
                     schedule_id := db.nextScheduleId,
                     class_name := seat.class_name,
                     class_description := seat.class_description,
                     status := seat.status, price := seat.price } : SeatRow)),
              nextScheduleId := db.nextScheduleId + 1,
              nextSeatId := db.nextSeatId + sd.seat_availability.length }

/-- Embedding of `save_schedules` (src/scrapers/transport_scraper.py lines
63-107).  The function has no handler of its own: a raised exception
propagates and the final `commit` is never reached, so `.error` leaves the
store unchanged.  (The in-place id backfill onto the response objects is
not modelled; no claim depends on it.) -/
def save_schedules (scheds : List TransportScheduleResponse)
    (q : TravelQuery) (db : DBState) : Except PyErr DBState :=
  match scheds with
  | [] => .ok db
  | sd :: rest =>
    match saveOne q db sd with
    | .error e => .error e
    | .ok db1 => save_schedules rest q db1

/-! ## Resolution orchestrators

`src/scrapers/transport_scraper.py` sets only `self.train_scraper` in
`__init__` (line 24) yet calls `self.database_service.search_schedules` and
`self.database_service.save_schedules` (lines 151, 181); instance attribute
lookup is modelled explicitly.  The extraction collaborator (browser
automation) is abstracted as a function parameter. -/

/-- Instance attributes a `TransportScraper` object actually has
(src/scrapers/transport_scraper.py line 24). -/
def transportScraperAttrs : List String := ["train_scraper"]

/-- Python attribute lookup on the scraper object. -/
def scraperGetattr (name : String) : Except PyErr Unit :=
  if transportScraperAttrs.contains name then .ok ()
  else .error (.attributeError
    ("TransportScraper object has no attribute " ++ name))

/-- `_create_not_implemented_response` / `_create_error_response`
(src/scrapers/transport_scraper.py lines 194-212): identical shapes. -/
def errorResponse (q : TravelQuery) (msg : String) :
    TravelAvailabilityResponse :=
  { input := q, schedules := [], status := "error", message := some msg,
    source := "scraper" }

/-- Success response of `_scrape_trains`. -/
def scrapedResponse (q : TravelQuery)
    (scheds : List TransportScheduleResponse) : TravelAvailabilityResponse :=
  { input := q, schedules := scheds, status := "success",
    message := some ("Successfully scraped " ++ toString scheds.length
      ++ " trains"),
    source := "scraper" }

/-- Embedding of `_scrape_trains` (src/scrapers/transport_scraper.py lines
170-192).  The train scraper collaborator either raises (modelled by
`.error msg`) or yields raw schedules.  On a non-empty yield the source
dereferences `self.database_service` before saving; the lookup raises
inside the `try`, so the handler returns the error response and nothing is
committed. -/
def scrapersScrapeTrains
    (extract : TravelQuery → Except String (List TransportScheduleResponse))
    (q : TravelQuery) (db : DBState) :
    TravelAvailabilityResponse × DBState :=
  match extract q with
  | .error msg => (errorResponse q ("Train scraping error: " ++ msg), db)
  | .ok schedules =>
    if schedules.isEmpty then (scrapedResponse q schedules, db)
    else
      match scraperGetattr "database_service" with
      | .error e =>
        (errorResponse q ("Train scraping error: " ++ pyErrStr e), db)
      | .ok _ =>
        -- unreachable: the object has no `database_service` attribute
        match save_schedules schedules q db with
        | .error e =>
          (errorResponse q ("Train scraping error: " ++ pyErrStr e), db)
        | .ok db2 => (scrapedResponse q schedules, db2)

/-- Embedding of `_scrape_availability` (src/scrapers/transport_scraper.py
lines 158-168): dispatch on the transport mode. -/
def scrape_availability_dispatch
    (extract : TravelQuery → Except String (List TransportScheduleResponse))
    (q : TravelQuery) (db : DBState) :
    TravelAvailabilityResponse × DBState :=
  if q.mode == "train" then scrapersScrapeTrains extract q db
  else if q.mode == "bus" then
    (errorResponse q "Bus scraping not implemented yet", db)
  else if q.mode == "flight" then
    (errorResponse q "Flight scraping not implemented yet", db)
  else (errorResponse q ("Unsupported transport mode: " ++ q.mode), db)

/-- Embedding of `get_availability` (src/scrapers/transport_scraper.py
lines 145-156).  The body's first step evaluates
`self.database_service`, and `get_availability` has no exception handler,
so a lookup failure propagates to the caller. -/
def get_availability
    (extract : TravelQuery → Except String (List TransportScheduleResponse))
    (q : TravelQuery) (db : DBState) :
    Except PyErr (TravelAvailabilityResponse × DBState) :=
  match scraperGetattr "database_service" with
  | .error e => .error e
  | .ok _ =>
    -- unreachable: the attribute lookup always fails
    match search_schedules q db with
    | some r => .ok (r, db)
    | none => .ok (scrape_availability_dispatch extract q db)

/-! ## Older scraper iteration (`src/transport_scraper.py`)

This is the class `src/main.py` imports.  Its database helpers still
reference the removed `search_date` column. -/

/-- Class-attribute lookup on the declarative `TransportSchedules` model
(`TransportSchedules.search_date` in a filter expression). -/
def schedClassAttr (name : String) : Except PyErr Unit :=
  if transportSchedulesModelAttrs.contains name then .ok ()
  else .error (.attributeError
    ("type object TransportSchedules has no attribute " ++ name))

/-- Embedding of `search_database` (src/transport_scraper.py lines 87-144).
Building the filter evaluates `TransportSchedules.search_date`, which
raises `AttributeError`; the blanket `except` returns `None`. -/
def search_database (q : TravelQuery) (db : DBState) :
    Option TravelAvailabilityResponse :=
  match schedClassAttr "search_date" with
  | .error _ => none
  | .ok _ =>
    -- unreachable: `search_date` is not among the model attributes.  The
    -- other three filters are kept for structure; the `search_date`
    -- equality has no counterpart because the column does not exist.
    let matched := db.schedules.filter (fun r =>
      r.transport_mode == q.mode && ilikeContains r.origin q.origin
        && ilikeContains r.destination q.destination)
    if matched.isEmpty then none
    else
      some { input := q, schedules := matched.map (scheduleToResponse db),
             status := "success",
             message := some ("Found " ++ toString matched.length
               ++ " schedules from database"),
             source := "database" }

/-- Keyword arguments the older `save_to_database` passes to the
`TransportSchedules` constructor (src/transport_scraper.py lines 151-165),
including the removed `search_date`. -/
def rootTransportKwargs : List String :=
  ["transport_mode", "transport_id", "transport_name", "origin",
   "departure_time", "destination", "arrival_time", "duration", "distance",
   "halts", "origin_code", "destination_code", "search_date"]

/-- Embedding of `save_to_database` (src/transport_scraper.py lines
146-190).  The first loop iteration constructs
`TransportSchedules(..., search_date=query.datetime)`; the declarative
constructor rejects the removed column, the handler rolls back and
re-raises.  With an empty list the loop body never runs and the commit is a
no-op. -/
def save_to_database (scheds : List TransportScheduleResponse)
    (_q : TravelQuery) (db : DBState) : Except PyErr DBState :=
  match scheds with
  | [] => .ok db
  | _ :: _ =>
    match sqlalchemyCtorCheck transportSchedulesModelAttrs
        rootTransportKwargs with
    | .error e => .error e
    | .ok _ => .ok db  -- unreachable: `search_date` is in the kwargs

/-- Outcome of one run of the browser-automation part of `scrape_trains`
(src/transport_scraper.py lines 230-358): an early error-response return,
an exception caught by the outer handler, or extracted raw schedules. -/
inductive ExtractOutcome where
  | failed (message : String)
  | raisedErr (e : PyErr)
  | extracted (schedules : List TransportScheduleResponse)

/-- Embedding of `scrape_trains` (src/transport_scraper.py lines 230-358)
with the browser automation abstracted as `extract`.  A `save_to_database`
failure is caught by the outer handler and surfaces as
`"Main execution error: ..."`, leaving the store unchanged. -/
def rootScrapeTrains (extract : TravelQuery → ExtractOutcome)
    (q : TravelQuery) (db : DBState) :
    TravelAvailabilityResponse × DBState :=
  match extract q with
  | .failed msg => (errorResponse q msg, db)
  | .raisedErr e =>
    (errorResponse q ("Main execution error: " ++ pyErrStr e), db)
  | .extracted schedules =>
    if schedules.isEmpty then (scrapedResponse q schedules, db)
    else
      match save_to_database schedules q db with
      | .error e =>
        (errorResponse q ("Main execution error: " ++ pyErrStr e), db)
      | .ok db2 => (scrapedResponse q schedules, db2)

/-- Embedding of `scrape_availability` (src/transport_scraper.py lines
192-228): database first, then mode dispatch. -/
def scrape_availability (extract : TravelQuery → ExtractOutcome)
    (q : TravelQuery) (db : DBState) :
    TravelAvailabilityResponse × DBState :=
  match search_database q db with
  | some r => (r, db)
  | none =>
    if q.mode == "train" then rootScrapeTrains extract q db
    else if q.mode == "bus" then
      (errorResponse q "Bus scraping not implemented yet", db)
    else if q.mode == "flight" then
      (errorResponse q "Flight scraping not implemented yet", db)
    else (errorResponse q ("Unsupported transport mode: " ++ q.mode), db)

/-! ## Reference definitions transcribed from the claims

These are written from the claim texts, independently of the embeddings
above, to be compared against them. -/

/-- Reference booking-decision policy of claim C2: empty text is regret;
otherwise the first matching containment check on the lowercased text in
the order available / regret / waitlist-or-wl decides. -/
def decideOutcomeRef (status_text : String) : String :=
  if status_text = "" then "regret"
  else
    let text := toLowerL status_text.data
    if containsL "available".data text then "confirmed"
    else if containsL "regret".data text then "regret"
    else if containsL "waitlist".data text || containsL "wl".data text then
      "waitlist"
    else "regret"

/-- Reference normaliser of the amended claim C9: text before the first
`" - "` (stripped); else text between the first `(` and the first `)`
(stripped); else a three-character uppercase input unchanged; else the
first up-to-three characters uppercased (so the empty string maps to the
empty string). -/
def normalizeAirportCodeRef (s : String) : String :=
  let l := s.data
  if containsL " - ".data l then
    ⟨trimL (l.take ((findIdxSub " - ".data l).getD l.length))⟩
  else if l.contains '(' && l.contains ')' then
    let i := (findIdxSub ['('] l).getD 0
    let j := (findIdxSub [')'] l).getD 0
    ⟨trimL ((l.drop (i + 1)).take (j - (i + 1)))⟩
  else if l.length = 3 && pyIsUpper l then s
  else ⟨(toUpperL l).take 3⟩

/-- `00:00:00.000000` of a calendar day (claim C3's window start). -/
def startOfDay (y mo d : Nat) : PyDateTime := ⟨y, mo, d, 0, 0, 0, 0⟩

/-- `23:59:59.999999` of a calendar day (claim C3's window end). -/
def endOfDay (y mo d : Nat) : PyDateTime := ⟨y, mo, d, 23, 59, 59, 999999⟩

/-- Row predicate of claim C3: same mode; the query origin occurs
case-insensitively in the stored `origin_query` or in `origin` (likewise
for the destination); departure within the inclusive day window. -/
def claimCacheMatch (q : TravelQuery) (y mo d : Nat)
    (r : ScheduleRecord) : Bool :=
  r.transport_mode == q.mode
    && (ilikeContains r.origin_query q.origin
        || ilikeContains r.origin q.origin)
    && (ilikeContains r.destination_query q.destination
        || ilikeContains r.destination q.destination)
    && dtLe (startOfDay y mo d) r.departure_time
    && dtLe r.departure_time (endOfDay y mo d)

/-- Claim C4's description of a persisted record: both raw times normalise
against the query date, the departure is stored as parsed, and when the raw
arrival is not after the raw departure the stored arrival is the arrival
time-of-day on the day after the stored departure's date. -/
def rolledFrom (q : TravelQuery) (sd : TransportScheduleResponse)
    (r : ScheduleRecord) : Prop :=
  ∃ dep arr,
    time_to_datetime sd.departure_time q.datetime = .ok dep
    ∧ time_to_datetime sd.arrival_time q.datetime = .ok arr
    ∧ r.departure_time = dep
    ∧ (dtLe arr dep = true →
        r.arrival_time = withYmd arr (nextYmd dep.year dep.month dep.day))
    ∧ (dtLe arr dep = false → r.arrival_time = arr)

/-- The maximal whitespace-free prefix of a base-date string; every
successful `time_to_datetime t b` call has this prefix of `b` as its
calendar day. -/
def wsFree (b : String) : List Char :=
  b.data.takeWhile (fun c => ¬ isWs c)

/-! ## Concrete fixtures for witnesses and counterexamples -/

def exSchedule : ScheduleRecord :=
  { id := 1, transport_mode := "train", transport_id := "12951",
    transport_name := "Mumbai Rajdhani", origin := "New Delhi",
    departure_time := ⟨2024, 8, 11, 16, 25, 0, 0⟩,
    destination := "Mumbai Central",
    arrival_time := ⟨2024, 8, 12, 8, 15, 0, 0⟩, duration := "15h 50m",
    distance := some "1384 km", halts := some "6 halts",
    origin_code := "NDLS", destination_code := "MMCT",
    origin_query := "Delhi", destination_query := "Mumbai" }

def exSeat : SeatRow :=
  { id := 1, schedule_id := 1, class_name := "SL",
    class_description := "Sleeper", status := "Available", price := "500" }

def exDB : DBState :=
  { schedules := [exSchedule], seats := [exSeat], bookings := [],
    nextScheduleId := 2, nextSeatId := 2 }

def exPrefs : SeatPreferences :=
  { seat_class := "SL", seat_position := none, coach := none,
    seat_number := none }

def exQuery : TravelQuery :=
  { mode := "train", origin := "Delhi", destination := "Mumbai",
    datetime := "2024-08-11" }

def exBooking : BookingRow :=
  { id := "bk1", user_id := "u1", schedule_id := 1,
    booking_status := "confirmed" }

def exDBWithBooking : DBState :=
  { exDB with bookings := [exBooking] }

/-- A raw scraped schedule whose arrival clock time precedes its departure
clock time, exercising the next-day rollover. -/
def exScraped : TransportScheduleResponse :=
  { id := none, transport_mode := "train", transport_id := "12951",
    transport_name := "Mumbai Rajdhani", origin := "New Delhi",
    departure_time := "16:25", destination := "Mumbai Central",
    arrival_time := "08:15", duration := "15h 50m",
    distance := some "1384 km", halts := some "6 halts",
    origin_code := "NDLS", destination_code := "MMCT",
    seat_availability :=
      [{ id := none, class_name := "SL", class_description := "Sleeper",
         status := "Available", price := "500" }] }

def emptyDB : DBState :=
  { schedules := [], seats := [], bookings := [], nextScheduleId := 1,
    nextSeatId := 1 }

/-! ## Helper lemmas -/

/-- After flipping the first booking with a given id, `find?` on that id
returns the flipped row. -/
theorem find_cancelFirst (l : List BookingRow) (bid : String) (b : BookingRow)
    (h : l.find? (fun x => x.id == bid) = some b) :
    (cancelFirstBooking l bid).find? (fun x => x.id == bid)
      = some { b with booking_status := "cancelled" } := by
  induction l with
  | nil => simp at h
  | cons hd tl ih =>
    rw [List.find?_cons] at h
    unfold cancelFirstBooking
    cases hh : hd.id == bid with
    | true =>
      simp [hh] at h
      subst h
      simp [hh, List.find?_cons]
    | false =>
      simp [hh] at h
      simp [hh, List.find?_cons]
      exact ih h

/-- Every branch of `scrape_availability` answers with source `"scraper"`,
leaves the store untouched, and carries a success/error status. -/
theorem scrape_availability_shape (extract : TravelQuery → ExtractOutcome)
    (q : TravelQuery) (db : DBState) :
    (scrape_availability extract q db).1.source = "scraper"
    ∧ (scrape_availability extract q db).2 = db
    ∧ ((scrape_availability extract q db).1.status = "success"
       ∨ (scrape_availability extract q db).1.status = "error") := by
  unfold scrape_availability
  rw [show search_database q db = none from rfl]
  by_cases h1 : (q.mode == "train") = true
  · rw [if_pos h1]
    unfold rootScrapeTrains
    cases hex : extract q with
    | failed m => exact ⟨rfl, rfl, Or.inr rfl⟩
    | raisedErr e => exact ⟨rfl, rfl, Or.inr rfl⟩
    | extracted scheds =>
      cases scheds with
      | nil => exact ⟨rfl, rfl, Or.inl rfl⟩
      | cons a t => exact ⟨rfl, rfl, Or.inr rfl⟩
  · rw [if_neg h1]
    by_cases h2 : (q.mode == "bus") = true
    · rw [if_pos h2]; exact ⟨rfl, rfl, Or.inr rfl⟩
    · rw [if_neg h2]
      by_cases h3 : (q.mode == "flight") = true
      · rw [if_pos h3]; exact ⟨rfl, rfl, Or.inr rfl⟩
      · rw [if_neg h3]; exact ⟨rfl, rfl, Or.inr rfl⟩

/-- `create_booking` always reports success or error. -/
theorem create_booking_status (u : String) (sid : Nat) (db : DBState)
    (prefs : Option SeatPreferences) (g : String) :
    (create_booking u sid db prefs g).1.status = "success"
    ∨ (create_booking u sid db prefs g).1.status = "error" := by
  unfold create_booking
  repeat' split
  all_goals first
  | exact Or.inl rfl
  | exact Or.inr rfl

/-- `cancel_booking` always reports success or error. -/
theorem cancel_booking_status (bid : String) (db : DBState) :
    (cancel_booking bid db).1.status = "success"
    ∨ (cancel_booking bid db).1.status = "error" := by
  unfold cancel_booking
  repeat' split
  all_goals first
  | exact Or.inl rfl
  | exact Or.inr rfl

/-! ## Claim theorems -/

/-- Claim C1 (code-bug evidence): on a store where every guard of
`create_booking` passes — the schedule exists, the seat class is given and
a seat-availability row matches it case-insensitively, with status
`"Available"` deciding `"confirmed"` — the call still returns an error
response and leaves the bookings table unchanged, because the `Bookings`
model declares no `seat_preferences` column and its constructor raises
`TypeError` on that keyword. -/
theorem create_booking_guards_pass_yet_error :
    findSchedule exDB 1 = some exSchedule
    ∧ exPrefs.seat_class ≠ ""
    ∧ findSeatRow exDB 1 exPrefs.seat_class = some exSeat
    ∧ decide_train_booking_outcome exSeat.status = "confirmed"
    ∧ (create_booking "u1" 1 exDB (some exPrefs) "b-1").1.status = "error"
    ∧ (create_booking "u1" 1 exDB (some exPrefs) "b-1").1.message
        = "Error creating booking: seat_preferences is an invalid keyword argument"
    ∧ (create_booking "u1" 1 exDB (some exPrefs) "b-1").2 = exDB := by
  refine ⟨rfl, by decide, rfl, rfl, rfl, rfl, rfl⟩

/-- Claim C5: a stored non-cancelled booking is cancelled by the first
call (status flipped to `"cancelled"`), a second call on the same id
answers the already-cancelled error and changes nothing, and cancelling an
unknown id answers the not-found error and changes nothing. -/
theorem cancel_booking_lifecycle (db : DBState) (bid bid2 : String)
    (b : BookingRow)
    (hfind : findBooking db bid = some b)
    (hnc : b.booking_status ≠ "cancelled")
    (hmiss : findBooking db bid2 = none) :
    (cancel_booking bid db).1.status = "success"
    ∧ findBooking (cancel_booking bid db).2 bid
        = some { b with booking_status := "cancelled" }
    ∧ (cancel_booking bid (cancel_booking bid db).2).1
        = { status := "error", message := "Booking is already cancelled" }
    ∧ (cancel_booking bid (cancel_booking bid db).2).2
        = (cancel_booking bid db).2
    ∧ cancel_booking bid2 db
        = ({ status := "error", message := "Booking not found" }, db) := by
  have hstate : (cancel_booking bid db).2
      = { db with bookings := cancelFirstBooking db.bookings bid } := by
    unfold cancel_booking
    rw [hfind]
    simp only [if_neg hnc]
  have hfind2 : findBooking (cancel_booking bid db).2 bid
      = some { b with booking_status := "cancelled" } := by
    rw [hstate]
    exact find_cancelFirst db.bookings bid b hfind
  have hres : cancel_booking bid (cancel_booking bid db).2
      = ({ status := "error", message := "Booking is already cancelled" },
         (cancel_booking bid db).2) := by
    generalize hdb2 : (cancel_booking bid db).2 = db2 at hfind2
    unfold cancel_booking
    rw [hfind2]
    simp
  refine ⟨?_, hfind2, ?_, ?_, ?_⟩
  · unfold cancel_booking
    rw [hfind]
    simp only [if_neg hnc]
  · rw [hres]
  · rw [hres]
  · unfold cancel_booking
    rw [hmiss]

/-- Witness for C5 at a concrete store with one confirmed booking. -/
theorem cancel_booking_lifecycle_app :
    (cancel_booking "bk1" exDBWithBooking).1.status = "success"
    ∧ findBooking (cancel_booking "bk1" exDBWithBooking).2 "bk1"
        = some { exBooking with booking_status := "cancelled" }
    ∧ (cancel_booking "bk1" (cancel_booking "bk1" exDBWithBooking).2).1
        = { status := "error", message := "Booking is already cancelled" }
    ∧ (cancel_booking "bk1" (cancel_booking "bk1" exDBWithBooking).2).2
        = (cancel_booking "bk1" exDBWithBooking).2
    ∧ cancel_booking "nope" exDBWithBooking
        = ({ status := "error", message := "Booking not found" },
           exDBWithBooking) :=
  cancel_booking_lifecycle exDBWithBooking "bk1" "nope" exBooking rfl
    (by decide) rfl

/-- Claim C8 (code-bug evidence): with a plain date, a failed clock-time
parse yields midnight of the base date and a successful one yields the
base day with the parsed clock time even when the base text carries a time
part — but when the base text carries a time part *and* the clock-time
parse fails, the fallback `strptime` itself fails, so `time_to_datetime`
raises instead of returning midnight as its documentation promises. -/
theorem time_to_datetime_fallback_bug :
    raised (time_to_datetime "xx" "2024-08-11 10:00") = true
    ∧ time_to_datetime "xx" "2024-08-11" = .ok ⟨2024, 8, 11, 0, 0, 0, 0⟩
    ∧ time_to_datetime "14:30" "2024-08-11 10:00"
        = .ok ⟨2024, 8, 11, 14, 30, 0, 0⟩
    ∧ time_to_datetime "14:30" "2024-08-11"
        = .ok ⟨2024, 8, 11, 14, 30, 0, 0⟩ := by
  refine ⟨rfl, rfl, rfl, rfl⟩

/-- Claim C9 counterexample: the empty string is mapped to the empty
string, not to `"UNK"`, and the result is not a 3-letter code. -/
theorem normalize_airport_code_empty_cex :
    normalize_airport_code "" = ""
    ∧ normalize_airport_code "" ≠ "UNK"
    ∧ (normalize_airport_code "").length ≠ 3 := by
  refine ⟨rfl, by decide, by decide⟩

/-- Claim C10: in the scraper iteration imported by the HTTP layer,
`search_database` answers `None` for every query and store (its filter
dereferences the removed `search_date` column and the handler swallows the
`AttributeError`), `save_to_database` raises on any non-empty batch (the
constructor rejects the `search_date` keyword), and consequently
`scrape_availability` never answers with source `"database"` and never
changes the store. -/
theorem stale_search_date_dead_path (q : TravelQuery) (db : DBState)
    (sd : TransportScheduleResponse) (rest : List TransportScheduleResponse)
    (extract : TravelQuery → ExtractOutcome) :
    search_database q db = none
    ∧ save_to_database (sd :: rest) q db
        = .error (.typeError "search_date is an invalid keyword argument")
    ∧ (scrape_availability extract q db).1.source = "scraper"
    ∧ (scrape_availability extract q db).2 = db := by
  refine ⟨rfl, rfl, (scrape_availability_shape extract q db).1,
    (scrape_availability_shape extract q db).2.1⟩

/-- Claim C6 (code-bug evidence): `create_booking`, `cancel_booking` and
the older `scrape_availability` all terminate with a structured
success/error response, but the `get_availability` entry point of the
newer scraper raises `AttributeError` on every input, because `__init__`
never assigns the `database_service` attribute it dereferences. -/
theorem get_availability_attribute_fault
    (extract : TravelQuery → Except String (List TransportScheduleResponse))
    (rootExtract : TravelQuery → ExtractOutcome)
    (q : TravelQuery) (db : DBState) (u g bid : String) (sid : Nat)
    (prefs : Option SeatPreferences) :
    get_availability extract q db
      = .error (.attributeError
          "TransportScraper object has no attribute database_service")
    ∧ ((scrape_availability rootExtract q db).1.status = "success"
        ∨ (scrape_availability rootExtract q db).1.status = "error")
    ∧ ((create_booking u sid db prefs g).1.status = "success"
        ∨ (create_booking u sid db prefs g).1.status = "error")
    ∧ ((cancel_booking bid db).1.status = "success"
        ∨ (cancel_booking bid db).1.status = "error") :=
  ⟨rfl, (scrape_availability_shape rootExtract q db).2.2,
   create_booking_status u sid db prefs g, cancel_booking_status bid db⟩

/-- Claim C7: on a cache miss, bus and flight queries short-circuit to an
error response with an empty schedule list and the mode's
not-implemented message, and any mode outside train/bus/flight yields the
unsupported-mode error response; in both scraper iterations the result is
the same for every extraction collaborator and the store is untouched. -/
theorem unimplemented_modes
    (extract : TravelQuery → Except String (List TransportScheduleResponse))
    (rootExtract : TravelQuery → ExtractOutcome)
    (q : TravelQuery) (db : DBState) :
    (q.mode = "bus" →
      scrape_availability_dispatch extract q db
          = (errorResponse q "Bus scraping not implemented yet", db)
        ∧ scrape_availability rootExtract q db
          = (errorResponse q "Bus scraping not implemented yet", db))
    ∧ (q.mode = "flight" →
      scrape_availability_dispatch extract q db
          = (errorResponse q "Flight scraping not implemented yet", db)
        ∧ scrape_availability rootExtract q db
          = (errorResponse q "Flight scraping not implemented yet", db))
    ∧ (q.mode ≠ "train" → q.mode ≠ "bus" → q.mode ≠ "flight" →
      scrape_availability_dispatch extract q db
          = (errorResponse q ("Unsupported transport mode: " ++ q.mode), db)
        ∧ scrape_availability rootExtract q db
          = (errorResponse q ("Unsupported transport mode: " ++ q.mode),
             db)) := by
  refine ⟨?_, ?_, ?_⟩
  · intro hb
    constructor
    · unfold scrape_availability_dispatch
      rw [hb]
      rfl
    · unfold scrape_availability
      rw [show search_database q db = none from rfl, hb]
      rfl
  · intro hf
    constructor
    · unfold scrape_availability_dispatch
      rw [hf]
      rfl
    · unfold scrape_availability
      rw [show search_database q db = none from rfl, hf]
      rfl
  · intro h1 h2 h3
    have b1 : (q.mode == "train") = false := by
      simp [beq_eq_false_iff_ne, h1]
    have b2 : (q.mode == "bus") = false := by
      simp [beq_eq_false_iff_ne, h2]
    have b3 : (q.mode == "flight") = false := by
      simp [beq_eq_false_iff_ne, h3]
    constructor
    · unfold scrape_availability_dispatch
      rw [b1, b2, b3]
      rfl
    · unfold scrape_availability
      rw [show search_database q db = none from rfl, b1, b2, b3]
      rfl

/-- Witness for C7: a concrete bus query and a concrete unsupported mode. -/
theorem unimplemented_modes_app :
    scrape_availability_dispatch (fun _ => .ok [])
        { mode := "bus", origin := "Delhi", destination := "Mumbai",
          datetime := "2024-08-11" } emptyDB
      = (errorResponse
          { mode := "bus", origin := "Delhi", destination := "Mumbai",
            datetime := "2024-08-11" }
          "Bus scraping not implemented yet", emptyDB)
    ∧ scrape_availability (fun _ => .extracted [])
        { mode := "boat", origin := "Delhi", destination := "Mumbai",
          datetime := "2024-08-11" } emptyDB
      = (errorResponse
          { mode := "boat", origin := "Delhi", destination := "Mumbai",
            datetime := "2024-08-11" }
          ("Unsupported transport mode: " ++ "boat"), emptyDB) :=
  ⟨((unimplemented_modes (fun _ => .ok []) (fun _ => .extracted [])
      { mode := "bus", origin := "Delhi", destination := "Mumbai",
        datetime := "2024-08-11" } emptyDB).1 rfl).1,
   ((unimplemented_modes (fun _ => .ok []) (fun _ => .extracted [])
      { mode := "boat", origin := "Delhi", destination := "Mumbai",
        datetime := "2024-08-11" } emptyDB).2.2 (by decide) (by decide)
      (by decide)).2⟩

/-- The text before the first occurrence of a pattern is the take up to its
first index (the whole list when the pattern does not occur). -/
theorem beforeFirst_eq_take (pat l : List Char) :
    beforeFirst pat l = l.take ((findIdxSub pat l).getD l.length) := by
  induction l with
  | nil => simp [beforeFirst, findIdxSub]
  | cons c t ih =>
    unfold beforeFirst findIdxSub
    by_cases h : leadsWith pat (c :: t) = true
    · rw [if_pos h, if_pos h]
      rfl
    · rw [if_neg h, if_neg h]
      cases hf : findIdxSub pat t with
      | none => simp [ih, hf]
      | some k => simp [ih, hf]

/-- Claim C9 as amended: `normalize_airport_code` agrees with the
reference transcription — text before the first `" - "` stripped, else
text between the first parentheses stripped, else a 3-character uppercase
input unchanged, else the first up-to-three characters uppercased — and
the empty string maps to the empty string (not `"UNK"`). -/
theorem normalize_airport_code_amended (s : String) :
    normalize_airport_code s = normalizeAirportCodeRef s
    ∧ normalize_airport_code "" = "" := by
  refine ⟨?_, rfl⟩
  unfold normalize_airport_code normalizeAirportCodeRef
  by_cases h1 : containsL " - ".data s.data = true
  · rw [if_pos h1, if_pos h1, beforeFirst_eq_take]
  · rw [if_neg h1, if_neg h1]
    by_cases h2 : (s.data.contains '(' && s.data.contains ')') = true
    · rw [if_pos h2, if_pos h2]
      simp only [pySlice, List.drop_take]
    · rw [if_neg h2, if_neg h2]
      by_cases h3 : (s.data.length = 3 && pyIsUpper s.data) = true
      · rw [if_pos h3, if_pos h3]
      · rw [if_neg h3, if_neg h3]
        unfold toUpperL
        rw [List.map_take]

/-! ## Substring-invariance lemmas for the decision policy -/

/-- `Char.ofNat` of a small codepoint decodes back to it. -/
theorem charToNat_ofNat (n : Nat) (h : n < 55296) : (Char.ofNat n).toNat = n := by
  unfold Char.ofNat
  rw [dif_pos (Or.inl h)]
  rfl

/-- Characters are equal when their codepoints are. -/
theorem char_eq_iff_toNat (c d : Char) : c = d ↔ c.toNat = d.toNat := by
  constructor
  · intro h; rw [h]
  · intro h
    have := congrArg Char.ofNat h
    rwa [Char.ofNat_toNat, Char.ofNat_toNat] at this

/-- Whitespace as a codepoint predicate. -/
theorem isWs_iff_toNat (c : Char) :
    isWs c = true ↔ (c.toNat = 32 ∨ c.toNat = 9 ∨ c.toNat = 13 ∨ c.toNat = 10) := by
  unfold isWs Char.isWhitespace
  simp only [Bool.or_eq_true, decide_eq_true_eq]
  rw [char_eq_iff_toNat, char_eq_iff_toNat, char_eq_iff_toNat, char_eq_iff_toNat]
  simp only [show (' ').toNat = 32 from rfl, show ('\t').toNat = 9 from rfl,
    show ('\x0d').toNat = 13 from rfl, show ('\n').toNat = 10 from rfl]
  tauto

/-- Lowercasing preserves whitespace-ness. -/
theorem isWs_toLower (c : Char) : isWs c.toLower = isWs c := by
  unfold Char.toLower
  by_cases h : c.toNat ≥ 65 ∧ c.toNat ≤ 90
  · rw [if_pos h]
    have h1 : (Char.ofNat (c.toNat + 32)).toNat = c.toNat + 32 :=
      charToNat_ofNat _ (by omega)
    have e1 : isWs (Char.ofNat (c.toNat + 32)) = false := by
      rw [Bool.eq_false_iff]
      intro hw
      rw [isWs_iff_toNat, h1] at hw
      omega
    have e2 : isWs c = false := by
      rw [Bool.eq_false_iff]
      intro hw
      rw [isWs_iff_toNat] at hw
      omega
    rw [e1, e2]
  · rw [if_neg h]

/-- `leadsWith` is the prefix relation. -/
theorem leadsWith_iff (p : List Char) : ∀ l, leadsWith p l = true ↔ p <+: l := by
  induction p with
  | nil => intro l; simp [leadsWith]
  | cons a as ih =>
    intro l
    cases l with
    | nil => simp [leadsWith]
    | cons b bs =>
      rw [show leadsWith (a :: as) (b :: bs) = (a == b && leadsWith as bs)
        from rfl]
      simp [Bool.and_eq_true, beq_iff_eq, ih, List.cons_prefix_cons]

/-- `containsL` is the infix relation. -/
theorem containsL_iff (p l : List Char) : containsL p l = true ↔ p <:+: l := by
  induction l with
  | nil => simp [containsL, List.isEmpty_iff]
  | cons c t ih =>
    rw [show containsL p (c :: t) = (leadsWith p (c :: t) || containsL p t)
      from rfl]
    simp [leadsWith_iff, ih, List.infix_cons_iff]

/-- Substring search commutes with reversal (pattern reversed too). -/
theorem containsL_reverse (p l : List Char) :
    containsL p l.reverse = containsL p.reverse l := by
  rw [Bool.eq_iff_iff, containsL_iff, containsL_iff]
  constructor
  · intro h
    exact List.reverse_infix.mp (by simpa using h)
  · intro h
    simpa using List.reverse_infix.mpr h

/-- Dropping leading whitespace never affects containment of a pattern
without whitespace characters. -/
theorem containsL_dropWhile (p : List Char) (hne : p ≠ [])
    (hp : ∀ c ∈ p, isWs c = false) :
    ∀ l, containsL p (l.dropWhile isWs) = containsL p l := by
  intro l
  induction l with
  | nil => rfl
  | cons a t ih =>
    rw [List.dropWhile_cons]
    by_cases ha : isWs a = true
    · rw [if_pos ha, ih]
      rw [show containsL p (a :: t) = (leadsWith p (a :: t) || containsL p t)
        from rfl]
      have hlw : leadsWith p (a :: t) = false := by
        cases p with
        | nil => exact absurd rfl hne
        | cons c cs =>
          rw [show leadsWith (c :: cs) (a :: t) = (c == a && leadsWith cs t)
            from rfl]
          have hc : (c == a) = false := by
            rw [beq_eq_false_iff_ne]
            intro hca
            subst hca
            rw [hp c (List.mem_cons_self c cs)] at ha
            exact Bool.false_ne_true ha
          rw [hc, Bool.false_and]
      rw [hlw, Bool.false_or]
    · rw [if_neg ha]

/-- Stripping whitespace at either end never affects containment of a
pattern without whitespace characters. -/
theorem containsL_trimL (p l : List Char) (hne : p ≠ [])
    (hp : ∀ c ∈ p, isWs c = false) :
    containsL p (trimL l) = containsL p l := by
  have hne' : p.reverse ≠ [] := by simpa using hne
  have hp' : ∀ c ∈ p.reverse, isWs c = false := by
    intro c hc
    exact hp c (List.mem_reverse.mp hc)
  unfold trimL
  rw [containsL_reverse, containsL_dropWhile p.reverse hne' hp',
      containsL_reverse, List.reverse_reverse,
      containsL_dropWhile p hne hp]

/-- Lowercasing commutes with dropping leading whitespace. -/
theorem dropWhile_isWs_toLowerL (l : List Char) :
    (toLowerL l).dropWhile isWs = toLowerL (l.dropWhile isWs) := by
  unfold toLowerL
  rw [List.dropWhile_map]
  have h : ∀ x, (isWs ∘ Char.toLower) x = isWs x := fun x => isWs_toLower x
  rw [funext h]

/-- Lowercasing commutes with reversal. -/
theorem reverse_toLowerL (l : List Char) :
    (toLowerL l).reverse = toLowerL l.reverse := by
  unfold toLowerL
  exact (List.map_reverse ..).symm

/-- Lowercasing commutes with stripping. -/
theorem trimL_toLowerL (l : List Char) :
    trimL (toLowerL l) = toLowerL (trimL l) := by
  unfold trimL
  rw [dropWhile_isWs_toLowerL, reverse_toLowerL, dropWhile_isWs_toLowerL,
      reverse_toLowerL]

/-- Containment in the stripped-and-lowercased text equals containment in
the merely lowercased text, for whitespace-free patterns. -/
theorem containsL_toLower_trim (p l : List Char) (hne : p ≠ [])
    (hp : ∀ c ∈ p, isWs c = false) :
    containsL p (toLowerL (trimL l)) = containsL p (toLowerL l) := by
  rw [← trimL_toLowerL, containsL_trimL p (toLowerL l) hne hp]

/-- Claim C2: the booking decision policy agrees with the claim's reference
definition on every input string, and the listed examples decide as
stated ("0 Available" included). -/
theorem decide_outcome_matches_reference (s : String) :
    decide_train_booking_outcome s = decideOutcomeRef s
    ∧ decide_train_booking_outcome "3 Available" = "confirmed"
    ∧ decide_train_booking_outcome "Available" = "confirmed"
    ∧ decide_train_booking_outcome "0 Available" = "confirmed"
    ∧ decide_train_booking_outcome "WL 12" = "waitlist"
    ∧ decide_train_booking_outcome "Regret" = "regret"
    ∧ decide_train_booking_outcome "" = "regret" := by
  refine ⟨?_, rfl, rfl, rfl, rfl, rfl, rfl⟩
  unfold decide_train_booking_outcome decideOutcomeRef
  by_cases h0 : s = ""
  · rw [if_pos h0, if_pos h0]
  · rw [if_neg h0, if_neg h0]
    dsimp only
    rw [containsL_toLower_trim "available".data s.data (by decide) (by decide),
        containsL_toLower_trim "regret".data s.data (by decide) (by decide),
        containsL_toLower_trim "waitlist".data s.data (by decide) (by decide),
        containsL_toLower_trim "wl".data s.data (by decide) (by decide)]
    by_cases h1 : containsL "available".data (toLowerL s.data) = true
    · rw [if_pos h1, if_pos h1]
      cases searchNumAvailable (toLowerL (trimL s.data)) with
      | none => rfl
      | some n => simp
    · rw [if_neg h1, if_neg h1]

/-- Claim C3: when the query datetime parses as a calendar day, the day
window is exactly `00:00:00.000000 .. 23:59:59.999999`, a lookup with no
schedule matching the claim's predicate is a miss (`None`, not an error),
and a lookup with at least one match is a database-sourced success carrying
exactly the matching schedules, converted to the response shape. -/
theorem search_schedules_cache_spec (q : TravelQuery) (db : DBState)
    (y mo d : Nat)
    (h : parseYmdAll (datePartL q.datetime.data) = some (y, mo, d)) :
    parse_query_date q.datetime = some (startOfDay y mo d, endOfDay y mo d)
    ∧ (db.schedules.filter (claimCacheMatch q y mo d) = [] →
        search_schedules q db = none)
    ∧ (db.schedules.filter (claimCacheMatch q y mo d) ≠ [] →
        ∃ resp, search_schedules q db = some resp
          ∧ resp.status = "success"
          ∧ resp.source = "database"
          ∧ resp.schedules
              = (db.schedules.filter (claimCacheMatch q y mo d)).map
                  (scheduleToResponse db)) := by
  have hpq : parse_query_date q.datetime
      = some (startOfDay y mo d, endOfDay y mo d) := by
    unfold parse_query_date strptimeYmd datePartS
    rw [show (⟨datePartL q.datetime.data⟩ : String).data
      = datePartL q.datetime.data from rfl, h]
    rfl
  have hfilters : db.schedules.filter
        (schedMatchesQuery q (startOfDay y mo d) (endOfDay y mo d))
      = db.schedules.filter (claimCacheMatch q y mo d) := by
    apply List.filter_congr
    intro r _
    unfold claimCacheMatch schedMatchesQuery
    simp [Bool.and_assoc]
  refine ⟨hpq, ?_, ?_⟩
  · intro hemp
    unfold search_schedules
    rw [hpq]
    dsimp only
    rw [hfilters, hemp]
    rfl
  · intro hne
    unfold search_schedules
    rw [hpq]
    dsimp only
    rw [hfilters]
    rw [if_neg (fun hcontra => hne (List.isEmpty_iff.mp hcontra))]
    exact ⟨_, rfl, rfl, rfl, rfl⟩

/-- Witness for C3: the fixture query hits the fixture store. -/
theorem search_schedules_cache_spec_app :
    parse_query_date "2024-08-11"
      = some (startOfDay 2024 8 11, endOfDay 2024 8 11)
    ∧ (search_schedules exQuery exDB).isSome = true := by
  have h := search_schedules_cache_spec exQuery exDB 2024 8 11 rfl
  refine ⟨h.1, ?_⟩
  obtain ⟨resp, hr, -, -, -⟩ := h.2.2 (by decide)
  rw [hr]
  rfl

/-! ## Date agreement of `time_to_datetime` successes (claim C4) -/

/-- `takeWhile` stops at a failing separator regardless of what follows. -/
theorem takeWhile_append_stop {p : Char → Bool} (xs ys : List Char) (c : Char)
    (hc : p c = false) :
    List.takeWhile p (xs ++ c :: ys) = List.takeWhile p xs := by
  induction xs with
  | nil => simp [List.takeWhile_cons, hc]
  | cons a t ih =>
    rw [List.cons_append, List.takeWhile_cons, List.takeWhile_cons]
    by_cases ha : p a = true
    · rw [if_pos ha, if_pos ha, ih]
    · rw [if_neg ha, if_neg ha]

/-- The whitespace-free prefix of the space-free prefix is the
whitespace-free prefix. -/
theorem takeWhile_notWs_datePart (l : List Char) :
    (datePartL l).takeWhile (fun c => ¬ isWs c)
      = l.takeWhile (fun c => ¬ isWs c) := by
  unfold datePartL
  rw [List.takeWhile_takeWhile]
  congr 1
  funext c
  by_cases hc : isWs c = true
  · simp [hc]
  · have hcs : c ≠ ' ' := by
      intro h
      subst h
      exact hc (by decide)
    simp [hc, hcs]

/-- A successful `strptime "%Y-%m-%d %H:%M:%S"` parse takes its calendar
day from the whitespace-free prefix of the input. -/
theorem strptimeYmdHms_date (s : String) (dt : PyDateTime)
    (h : strptimeYmdHms s = some dt) :
    parseYmdAll (s.data.takeWhile (fun c => ¬ isWs c))
      = some (dt.year, dt.month, dt.day) := by
  unfold strptimeYmdHms at h
  dsimp only at h
  split at h
  · exact absurd h (by simp)
  · split at h
    next ymd hms heqY heqH =>
      cases h
      rw [heqY]
    next => exact absurd h (by simp)

/-- Every successful `time_to_datetime t b` call draws its calendar day
from the whitespace-free prefix of `b`, on both the main path and the
fallback path. -/
theorem time_to_datetime_date (t b : String) (dt : PyDateTime)
    (h : time_to_datetime t b = .ok dt) :
    parseYmdAll (wsFree b) = some (dt.year, dt.month, dt.day) := by
  unfold time_to_datetime at h
  split at h
  next dt0 heq =>
    cases h
    have h2 := strptimeYmdHms_date _ _ heq
    rw [show (datePartS b ++ " " ++ t ++ ":00").data
        = datePartL b.data ++ ' ' :: (t.data ++ ":00".data) from by
          simp [String.data_append, datePartS], takeWhile_append_stop _ _ _
          (by decide), takeWhile_notWs_datePart] at h2
    exact h2
  next heq1 =>
    split at h
    next dt0 heq =>
      cases h
      have h2 := strptimeYmdHms_date _ _ heq
      rw [show (b ++ " 00:00:00").data = b.data ++ ' ' :: "00:00:00".data
          from by simp [String.data_append],
        takeWhile_append_stop _ _ _ (by decide)] at h2
      exact h2
    next => exact absurd h (by simp)

/-- A failed `<=` on datetimes means strict `>` (the order is total). -/
theorem dtLe_false_lt (a b : PyDateTime) (h : dtLe a b = false) :
    dtLt b a = true := by
  unfold dtLe at h
  unfold dtLt
  by_cases h1 : a.year ≠ b.year
  · rw [if_pos h1] at h
    rw [if_pos (Ne.symm h1)]
    simp only [decide_eq_false_iff_not] at h
    simp only [decide_eq_true_eq]
    omega
  · rw [if_neg h1] at h
    rw [if_neg (fun hh => h1 (Ne.symm hh))]
    by_cases h2 : a.month ≠ b.month
    · rw [if_pos h2] at h
      rw [if_pos (Ne.symm h2)]
      simp only [decide_eq_false_iff_not] at h
      simp only [decide_eq_true_eq]
      omega
    · rw [if_neg h2] at h
      rw [if_neg (fun hh => h2 (Ne.symm hh))]
      by_cases h3 : a.day ≠ b.day
      · rw [if_pos h3] at h
        rw [if_pos (Ne.symm h3)]
        simp only [decide_eq_false_iff_not] at h
        simp only [decide_eq_true_eq]
        omega
      · rw [if_neg h3] at h
        rw [if_neg (fun hh => h3 (Ne.symm hh))]
        by_cases h4 : a.hour ≠ b.hour
        · rw [if_pos h4] at h
          rw [if_pos (Ne.symm h4)]
          simp only [decide_eq_false_iff_not] at h
          simp only [decide_eq_true_eq]
          omega
        · rw [if_neg h4] at h
          rw [if_neg (fun hh => h4 (Ne.symm hh))]
          by_cases h5 : a.minute ≠ b.minute
          · rw [if_pos h5] at h
            rw [if_pos (Ne.symm h5)]
            simp only [decide_eq_false_iff_not] at h
            simp only [decide_eq_true_eq]
            omega
          · rw [if_neg h5] at h
            rw [if_neg (fun hh => h5 (Ne.symm hh))]
            by_cases h6 : a.second ≠ b.second
            · rw [if_pos h6] at h
              rw [if_pos (Ne.symm h6)]
              simp only [decide_eq_false_iff_not] at h
              simp only [decide_eq_true_eq]
              omega
            · rw [if_neg h6] at h
              rw [if_neg (fun hh => h6 (Ne.symm hh))]
              simp only [decide_eq_false_iff_not] at h
              simp only [decide_eq_true_eq]
              omega

/-- Any time of day on the calendar day after a date is strictly later
than any time on an equal date. -/
theorem dtLt_withYmd_next (dep arr : PyDateTime)
    (hy : dep.year = arr.year) (hm : dep.month = arr.month)
    (hd : dep.day = arr.day) :
    dtLt dep (withYmd arr (nextYmd dep.year dep.month dep.day)) = true := by
  unfold withYmd nextYmd dtLt
  split_ifs <;> simp_all

/-- Characterisation of a successful `saveOne` step: exactly one schedule
row is appended, built per claim C4 (arrival rolled to the day after the
departure's date when not later than the departure), and it satisfies the
ordering invariant. -/
theorem saveOne_ok (q : TravelQuery) (db db1 : DBState)
    (sd : TransportScheduleResponse)
    (h : saveOne q db sd = .ok db1) :
    ∃ r, db1.schedules = db.schedules ++ [r]
      ∧ rolledFrom q sd r
      ∧ dtLt r.departure_time r.arrival_time = true := by
  unfold saveOne at h
  split at h
  · exact absurd h (by simp)
  next dep hdep =>
    split at h
    · exact absurd h (by simp)
    next arrRaw harr =>
      have hdepd := time_to_datetime_date _ _ _ hdep
      have harrd := time_to_datetime_date _ _ _ harr
      rw [hdepd] at harrd
      simp only [Option.some.injEq, Prod.mk.injEq] at harrd
      obtain ⟨hy, hm, hd⟩ := harrd
      split at h
      · exact absurd h (by simp)
      next arr hroll =>
        cases h
        refine ⟨_, rfl, ⟨dep, arrRaw, hdep, harr, rfl, ?_, ?_⟩, ?_⟩
        · intro hle
          rw [if_pos hle] at hroll
          unfold addOneDay at hroll
          split at hroll
          · exact absurd hroll (by simp)
          · simp only [Except.ok.injEq] at hroll
            show arr = withYmd arrRaw (nextYmd dep.year dep.month dep.day)
            rw [hy, hm, hd]
            exact hroll.symm
        · intro hle
          rw [hle] at hroll
          simp only [Bool.false_eq_true, if_false, Except.ok.injEq] at hroll
          exact hroll.symm
        · show dtLt dep arr = true
          by_cases hle : dtLe arrRaw dep = true
          · rw [if_pos hle] at hroll
            unfold addOneDay at hroll
            split at hroll
            · exact absurd hroll (by simp)
            · simp only [Except.ok.injEq] at hroll
              rw [← hroll]
              rw [show nextYmd arrRaw.year arrRaw.month arrRaw.day
                = nextYmd dep.year dep.month dep.day from by rw [hy, hm, hd]]
              exact dtLt_withYmd_next dep arrRaw hy hm hd
          · rw [if_neg hle] at hroll
            simp only [Except.ok.injEq] at hroll
            rw [← hroll]
            exact dtLe_false_lt arrRaw dep (Bool.not_eq_true _ ▸
              Bool.of_not_eq_true hle)

/-- Claim C4: whenever `save_schedules` succeeds, every schedule row of the
resulting store is either pre-existing or was built from one of the input
schedules with the raw times normalised against the query date — its
arrival equal to the arrival time-of-day on the calendar day after the
departure's date whenever the raw arrival was not later than the raw
departure — and every such new row satisfies
`arrival_time > departure_time`. -/
theorem save_schedules_rollover (scheds : List TransportScheduleResponse)
    (q : TravelQuery) (db db' : DBState)
    (h : save_schedules scheds q db = .ok db') :
    ∀ r ∈ db'.schedules, r ∈ db.schedules
      ∨ ((∃ sd ∈ scheds, rolledFrom q sd r)
         ∧ dtLt r.departure_time r.arrival_time = true) := by
  induction scheds generalizing db with
  | nil =>
    unfold save_schedules at h
    simp only [Except.ok.injEq] at h
    subst h
    intro r hr
    exact Or.inl hr
  | cons sd rest ih =>
    unfold save_schedules at h
    split at h
    · exact absurd h (by simp)
    next db1 h1 =>
      obtain ⟨r0, hsch, hroll, hlt⟩ := saveOne_ok q db db1 sd h1
      intro r hr
      rcases ih db1 h r hr with hmem | ⟨⟨sd', hsd', hroll'⟩, hlt'⟩
      · rw [hsch, List.mem_append, List.mem_singleton] at hmem
        rcases hmem with hold | hnew
        · exact Or.inl hold
        · subst hnew
          exact Or.inr ⟨⟨sd, List.mem_cons_self sd rest, hroll⟩, hlt⟩
      · exact Or.inr ⟨⟨sd', List.mem_cons_of_mem sd hsd', hroll'⟩, hlt'⟩

/-- Witness for C4: saving one scraped schedule whose arrival clock time
precedes its departure clock time produces the fixture store, and the
persisted row satisfies the ordering invariant. -/
theorem save_schedules_rollover_app :
    save_schedules [exScraped] exQuery emptyDB = .ok exDB
    ∧ dtLt exSchedule.departure_time exSchedule.arrival_time = true := by
  have hsave : save_schedules [exScraped] exQuery emptyDB = .ok exDB := by
    rfl
  refine ⟨hsave, ?_⟩
  have h := save_schedules_rollover [exScraped] exQuery emptyDB exDB hsave
    exSchedule (by decide)
  rcases h with hmem | ⟨-, hlt⟩
  · exact absurd hmem (by decide)
  · exact hlt
